import Mathlib

/-!
Verification development for the Salesforce FastMCP client
(`salesforce_client.py`).  The definitions below are a shallow embedding of
the query-construction, error-classification, lookup and hierarchy-navigation
logic of `SalesforceClient`.  HTTP transports are modelled as functions from
the raw query/request string to an outcome; Python dictionaries appearing in
the source are modelled as structures whose fields are `Option`-valued where
the source uses `dict.get`.  URL percent-encoding (`urllib.parse.quote`) is
omitted: it is injective on query strings, so transports are keyed by the raw
query text.
-/

namespace SFC

/-- One entry of a Salesforce structured error list, as consumed by
`_handle_error`: the keys `errorCode` and `message` are read with `dict.get`
(absent keys give `none`), and `repr` models `str(e)`, the fallback used when
`message` is absent. -/
structure ErrEntry where
  errorCode : Option String
  message : Option String
  repr : String
deriving DecidableEq, Repr

/-- An opaque Salesforce record, as carried in the `records` array of a query
response.  The engine never inspects record contents, so a record is modelled
as an opaque tag. -/
structure SRec where
  tag : String
deriving DecidableEq, Repr

/-- The result of `response.json()` when parsing succeeds: either a JSON list
of error entries (`isinstance(error_body, list)` in `_handle_error`), or any
other JSON value, modelled by its optional `records` key (for query payloads,
`data.get("records")`) together with `repr`, its textual rendering
(`f"{error_body}"`). -/
inductive BodyJson where
  | blist (es : List ErrEntry)
  | bobj (records : Option (List SRec)) (repr : String)
deriving DecidableEq, Repr

/-- An HTTP response as seen by the client: status code, the result of
`response.json()` (`none` models a `ValueError` on unparseable bodies), and
`response.text`. -/
structure Response where
  status : Nat
  body : Option BodyJson
  text : String
deriving DecidableEq, Repr

/-- Outcome of issuing one HTTP request: either the request itself raised
(connection failure and the like) or a response arrived. -/
inductive TOutcome where
  | raised
  | answered (r : Response)
deriving DecidableEq, Repr

/-- A transport maps a request (identified by its raw query or path string)
to an outcome.  This models `httpx.AsyncClient.get` as used by the client. -/
def Transport : Type := String → TOutcome

/-- Python truthiness of an optional string: `None` and the empty string are
falsy, every other string is truthy. -/
def pyTruthy (o : Option String) : Bool :=
  match o with
  | none => false
  | some s => !(s == "")

/-- Python exceptions that the embedded code paths can raise. -/
inductive PyErr where
  | sfError (msg : String)
  | valueError
  | attrError
  | transportRaised
deriving DecidableEq, Repr

/-- The message raised for an expired session
(`salesforce_client.py`, line 59). -/
def authExpiredMsg : String :=
  "Salesforce access token has expired. Please refresh your bearer token."

/-- Whether a structured error list contains an entry whose `errorCode` is
`INVALID_SESSION_ID` (the loop in `_handle_error`, lines 56-60). -/
def hasInvalidSession (es : List ErrEntry) : Bool :=
  es.any (fun e => e.errorCode == some "INVALID_SESSION_ID")

/-- The joined message list `", ".join(e.get("message", str(e)) ...)` from
`_handle_error`, line 68-69. -/
def errListMessage (es : List ErrEntry) : String :=
  String.intercalate ", " (es.map (fun e => e.message.getD e.repr))

/-- Whether a response takes the expired-session branch of `_handle_error`:
status 401 and a JSON-list body containing `INVALID_SESSION_ID`. -/
def isAuth401 (r : Response) : Bool :=
  r.status == 401 &&
    (match r.body with
     | some (.blist es) => hasInvalidSession es
     | _ => false)

/-- Embeds `SalesforceClient._handle_error` (lines 50-72): returns the message of
the `SalesforceError` raised for the response, or `none` when no error is
raised.  A 401 whose JSON body is a list containing `INVALID_SESSION_ID`
raises the token-expired message; any other status `>= 400` raises
`"Salesforce API Error: ..."` built from the error list, the raw JSON value,
or `response.text` when the body is unparseable. -/
def handleError (r : Response) : Option String :=
  if isAuth401 r then
    some authExpiredMsg
  else if 400 ≤ r.status then
    match r.body with
    | some (.blist es) => some ("Salesforce API Error: " ++ errListMessage es)
    | some (.bobj _ rep) => some ("Salesforce API Error: " ++ rep)
    | none => some ("Salesforce API Error: " ++ r.text)
  else
    none

/-- An aggregate specification dictionary as passed to `get_aggregated_data`
and `get_trend_analysis`: the keys `function`, `field` and `alias`, each read
with `dict.get`. -/
structure AggSpec where
  function : Option String
  field : Option String
  aliasVal : Option String
deriving DecidableEq, Repr

/-- Python `str.upper()` (ASCII range, which is all the source applies it
to), written as a character map so that it evaluates by kernel reduction. -/
def pyUpper (s : String) : String :=
  ⟨s.data.map Char.toUpper⟩

/-- Python `str.endswith(suffix)`. -/
def strEndsWith (s suffix : String) : Bool :=
  decide (List.IsSuffix suffix.data s.data)

/-- Embeds `agg.get("function", "COUNT").upper()` (line 292). -/
def effFunc (a : AggSpec) : String :=
  pyUpper (a.function.getD "COUNT")

/-- Embeds `agg.get("field", "Id")` (line 293). -/
def effField (a : AggSpec) : String :=
  a.field.getD "Id"

/-- Embeds `agg.get("alias", f"{func}_{field}")` (line 294). -/
def effAlias (a : AggSpec) : String :=
  a.aliasVal.getD (effFunc a ++ "_" ++ effField a)

/-- Rendering of one aggregate (lines 296-299): bare `COUNT(Id)` for the
COUNT-over-Id pair, `FUNC(field) alias` otherwise. -/
def renderAggregate (a : AggSpec) : String :=
  if effFunc a == "COUNT" && effField a == "Id" then
    "COUNT(Id)"
  else
    effFunc a ++ "(" ++ effField a ++ ") " ++ effAlias a

/-- Embeds `aggregate_str = ", ".join(aggregate_fields)` (line 301). -/
def aggregateStr (aggs : List AggSpec) : String :=
  String.intercalate ", " (aggs.map renderAggregate)

/-- The SELECT list (line 304): group-by field first when truthy. -/
def selectFields (aggs : List AggSpec) (groupBy : Option String) : String :=
  if pyTruthy groupBy then
    groupBy.getD "" ++ ", " ++ aggregateStr aggs
  else
    aggregateStr aggs

/-- Embeds `where_filter = f" WHERE {where_clause}" if where_clause else ""`
(line 307). -/
def whereFilter (w : Option String) : String :=
  if pyTruthy w then " WHERE " ++ w.getD "" else ""

/-- Embeds `group_by_stmt = f" GROUP BY {group_by}" if group_by else ""`
(line 310). -/
def groupByStmt (g : Option String) : String :=
  if pyTruthy g then " GROUP BY " ++ g.getD "" else ""

/-- The complete aggregate query built by `get_aggregated_data` (line 313). -/
def buildAggregateQuery (objectName : String) (aggs : List AggSpec)
    (groupBy whereClause : Option String) (limit : Int) : String :=
  "SELECT " ++ selectFields aggs groupBy ++ " FROM " ++ objectName ++
    whereFilter whereClause ++ groupByStmt groupBy ++ " LIMIT " ++ toString limit

/-- The lookback window of `get_trend_analysis` (lines 413-419), in days
before `datetime.now()`: `timeframe * 30` days for `"month"`,
`timeframe` weeks for `"week"`, and `timeframe` days for every other period
tag (the `else  # day` branch). -/
def trendStartOffsetDays (period : String) (timeframe : Int) : Int :=
  if period == "month" then timeframe * 30
  else if period == "week" then timeframe * 7
  else timeframe

/-- The absolute start day (days since an arbitrary epoch) of the trend
window: `now - timedelta(...)` of line 415/417/419 with `now` expressed in
epoch days. -/
def trendStartDays (nowDays : Int) (period : String) (timeframe : Int) : Int :=
  nowDays - trendStartOffsetDays period timeframe

/-- The date-bucketing expression of `get_trend_analysis` (lines 424-429). -/
def dateGrouping (period dateField : String) : String :=
  if period == "month" then
    "CALENDAR_YEAR(" ++ dateField ++ "), CALENDAR_MONTH(" ++ dateField ++ ")"
  else if period == "week" then
    "CALENDAR_YEAR(" ++ dateField ++ "), WEEK_IN_YEAR(" ++ dateField ++ ")"
  else
    "CALENDAR_YEAR(" ++ dateField ++ "), DAY_IN_MONTH(" ++ dateField ++ ")"

/-- Embeds `metrics if metrics else [{"function": "COUNT", "field": "Id", "alias":
"Total"}]` (line 432); a `None` or empty metrics list falls back to the
default COUNT metric. -/
def trendMetrics (metrics : Option (List AggSpec)) : List AggSpec :=
  match metrics with
  | some l => if l.isEmpty then [⟨some "COUNT", some "Id", some "Total"⟩] else l
  | none => [⟨some "COUNT", some "Id", some "Total"⟩]

/-- One rendered trend metric (line 438): always `FUNC(field) alias`, with
no bare-COUNT special case in this code path. -/
def renderMetric (a : AggSpec) : String :=
  effFunc a ++ "(" ++ effField a ++ ") " ++ effAlias a

/-- Embeds `metrics_str = ", ".join(metrics_fields)` (line 440). -/
def metricsStr (metrics : Option (List AggSpec)) : String :=
  String.intercalate ", " ((trendMetrics metrics).map renderMetric)

/-- The trend query of `get_trend_analysis` (lines 443-447).  The formatted
start date `start_date.strftime("%Y-%m-%d")` is passed in as the string
`startDateStr`; its numeric value is `trendStartDays`, the calendar
rendering itself being external formatting. -/
def buildTrendQuery (objectName dateField period : String)
    (metrics : Option (List AggSpec)) (startDateStr : String) : String :=
  "SELECT " ++ dateGrouping period dateField ++ ", " ++ metricsStr metrics ++
    " FROM " ++ objectName ++ " WHERE " ++ dateField ++ " >= " ++ startDateStr ++
    " GROUP BY " ++ dateGrouping period dateField ++
    " ORDER BY " ++ dateGrouping period dateField ++ " DESC LIMIT 50"

/-- A field descriptor from a describe payload as read by `get_hierarchy`
(lines 232-237): the keys `name` and `type` read with `dict.get`. -/
structure FieldDesc where
  name : Option String
  ftype : Option String
deriving DecidableEq, Repr

/-- The parent-field filter of `get_hierarchy` direction `"up"` (lines
233-236): reference type, name ending in `Id`, and not the identity field
itself. -/
def parentFieldPred (f : FieldDesc) : Bool :=
  f.ftype == some "reference" &&
    strEndsWith (f.name.getD "") "Id" &&
    !(f.name == some "Id")

/-- Embeds `parent_fields` (lines 232-237): the filtered descriptors, first three
in schema order. -/
def parentFields (fields : List FieldDesc) : List FieldDesc :=
  (fields.filter parentFieldPred).take 3

/-- The single record query of the `"up"` branch (line 243). -/
def upQuery (objectName recordId : String) (pf : List FieldDesc) : String :=
  "SELECT Id, " ++ String.intercalate ", " (pf.map (fun f => f.name.getD "")) ++
    " FROM " ++ objectName ++ " WHERE Id = \x27" ++ recordId ++ "\x27"

/-- The value returned by the `"up"` branch (lines 248-251): the first
matched record (`none` models the literal empty dict used when the query
matched nothing) together with the selected parent field descriptors. -/
structure UpResult where
  record : Option SRec
  parentFields : List FieldDesc
deriving DecidableEq, Repr

/-- Outcome of the `"up"` branch: the no-parent-relationships message of
line 240, or a result. -/
inductive UpOutcome where
  | noParents
  | result (u : UpResult)
deriving DecidableEq, Repr

/-- Embeds `get_hierarchy` with `direction="up"` (lines 230-251), given the
`fields` list of the describe payload.  `_handle_error` raising maps to
`.error (.sfError _)`; an unparseable body raises `ValueError` from
`response.json()`, and a JSON-list body raises `AttributeError` at
`data.get("records")`. -/
def getHierarchyUp (t : Transport) (fields : List FieldDesc)
    (objectName recordId : String) : Except PyErr UpOutcome :=
  let pf := parentFields fields
  if pf.isEmpty then .ok .noParents
  else
    match t (upQuery objectName recordId pf) with
    | .raised => .error .transportRaised
    | .answered r =>
      match handleError r with
      | some m => .error (.sfError m)
      | none =>
        match r.body with
        | none => .error .valueError
        | some (.blist _) => .error .attrError
        | some (.bobj recs _) =>
          .ok (.result
            { record := match recs with
                | some (h :: _) => some h
                | _ => none
              parentFields := pf })

/-- A child-relationship entry of a describe payload as read by
`get_hierarchy` (lines 254-272): the keys `field`, `relationshipName` and
`childSObject`. -/
structure ChildRel where
  field : Option String
  relationshipName : Option String
  childSObject : Option String
deriving DecidableEq, Repr

/-- Substring containment, modelling the Python `in` operator on strings. -/
def containsSub (s pat : String) : Bool :=
  decide (List.IsInfix pat.toList s.toList)

/-- The heuristic child-relationship filter of `get_hierarchy` direction
`"down"` (lines 254-258): a truthy `field` key, and either `"Parent"`
occurring in the field name or a truthy `relationshipName`. -/
def childRelPred (rel : ChildRel) : Bool :=
  pyTruthy rel.field &&
    (containsSub (rel.field.getD "") "Parent" || pyTruthy rel.relationshipName)

/-- The bound on queried child relationships (`[:3]`, line 259). -/
def maxRelationships : Nat := 3

/-- Embeds `child_rels` (lines 254-259): filtered relationships, first
`maxRelationships` in discovery order. -/
def eligibleChildRels (rels : List ChildRel) : List ChildRel :=
  (rels.filter childRelPred).take maxRelationships

/-- The per-relationship child query (lines 264-267). -/
def childQuery (childSObject fkField recordId : String) : String :=
  "SELECT Id, Name FROM " ++ childSObject ++ " WHERE " ++ fkField ++
    " = \x27" ++ recordId ++ "\x27 LIMIT 5"

/-- Embeds `rel.get("relationshipName") or rel["childSObject"]` (line 271):
Python `or` keeps the left operand when truthy. -/
def relDisplayName (rel : ChildRel) : String :=
  if pyTruthy rel.relationshipName then rel.relationshipName.getD ""
  else rel.childSObject.getD ""

/-- Python dict assignment `children[rel_name] = records` on an association
list: replace an existing binding of the key, otherwise append. -/
def dictInsert (m : List (String × List SRec)) (k : String)
    (v : List SRec) : List (String × List SRec) :=
  if m.any (fun p => p.1 == k) then
    m.map (fun p => if p.1 == k then (k, v) else p)
  else
    m ++ [(k, v)]

/-- One iteration of the child-relationship loop (lines 262-274): a missing
`childSObject` key raises `KeyError`, a raised request, a non-200 status, or
an unusable body all fall into the `except: continue` arm, leaving the
accumulator unchanged; a 200 response with a JSON-object body inserts
`data.get("records", [])` under the display name. -/
def childStep (t : Transport) (recordId : String)
    (acc : List (String × List SRec)) (rel : ChildRel) :
    List (String × List SRec) :=
  match rel.childSObject, rel.field with
  | some cs, some fk =>
    match t (childQuery cs fk recordId) with
    | .answered r =>
      if r.status == 200 then
        match r.body with
        | some (.bobj recs _) =>
          dictInsert acc (relDisplayName rel) (recs.getD [])
        | _ => acc
      else acc
    | .raised => acc
  | _, _ => acc

/-- Whether the sub-query of one eligible relationship succeeds, i.e. its
loop iteration inserts a key: all keys present, a 200 response, and a
JSON-object body. -/
def relSucceeds (t : Transport) (recordId : String) (rel : ChildRel) : Bool :=
  match rel.childSObject, rel.field with
  | some cs, some fk =>
    match t (childQuery cs fk recordId) with
    | .answered r =>
      r.status == 200 &&
        (match r.body with
         | some (.bobj _ _) => true
         | _ => false)
    | .raised => false
  | _, _ => false

/-- The `children` mapping built by `get_hierarchy` direction `"down"`
(lines 261-276).  The function is total: every failure mode of an iteration
is absorbed by `except: continue`, so the overall call always returns a
mapping once the describe data is in hand. -/
def getHierarchyDownChildren (t : Transport) (rels : List ChildRel)
    (recordId : String) : List (String × List SRec) :=
  (eligibleChildRels rels).foldl (childStep t recordId) []

/-- Embeds `search_fields or ["Name"]` (line 191): `None` and the empty list fall
back to `["Name"]`. -/
def lookupFields (searchFields : Option (List String)) : List String :=
  match searchFields with
  | some l => if l.isEmpty then ["Name"] else l
  | none => ["Name"]

/-- The SOSL query of `lookup_records` (lines 195-198).  The literal braces
of `FIND {term*}` are written with character escapes. -/
def soslQuery (objectName searchTerm : String) (fields : List String)
    (limit : Int) : String :=
  "FIND \x7b" ++ searchTerm ++ "*\x7d IN ALL FIELDS RETURNING " ++ objectName ++
    "(Id, " ++ String.intercalate ", " fields ++ ") LIMIT " ++ toString limit

/-- The fallback SOQL query of `lookup_records` (lines 208-214): one LIKE
predicate per requested field, joined with OR. -/
def soqlFallbackQuery (objectName searchTerm : String) (fields : List String)
    (limit : Int) : String :=
  "SELECT Id, " ++ String.intercalate ", " fields ++ " FROM " ++ objectName ++
    " WHERE " ++
    String.intercalate " OR "
      (fields.map (fun f => f ++ " LIKE \x27%" ++ searchTerm ++ "%\x27")) ++
    " LIMIT " ++ toString limit

/-- The fallback phase of `lookup_records` (lines 207-218): issue the SOQL
pattern query, run `_handle_error`, return the parsed body.  Its failures
propagate unmodified: a raised request, the `SalesforceError` from
`_handle_error`, or a `ValueError` parsing the final body. -/
def lookupFallback (t : Transport) (fq : String) : Except PyErr BodyJson :=
  match t fq with
  | .raised => .error .transportRaised
  | .answered r =>
    match handleError r with
    | some m => .error (.sfError m)
    | none =>
      match r.body with
      | some j => .ok j
      | none => .error .valueError

/-- Embeds `lookup_records` (lines 182-218): the result and the list of
requests actually issued, in order.  Phase 1 returns the parsed body of a
status-200 response to the SOSL query; a raised request, a non-200 status,
or a `ValueError` from `response.json()` (all inside the `try`) fall through
to `lookupFallback`. -/
def lookupRecords (t : Transport) (objectName searchTerm : String)
    (searchFields : Option (List String)) (limit : Int) :
    Except PyErr BodyJson × List String :=
  match t (soslQuery objectName searchTerm (lookupFields searchFields) limit) with
  | .answered r =>
    if r.status == 200 then
      match r.body with
      | some j =>
        (.ok j, [soslQuery objectName searchTerm (lookupFields searchFields) limit])
      | none =>
        (lookupFallback t
            (soqlFallbackQuery objectName searchTerm (lookupFields searchFields) limit),
          [soslQuery objectName searchTerm (lookupFields searchFields) limit,
            soqlFallbackQuery objectName searchTerm (lookupFields searchFields) limit])
    else
      (lookupFallback t
          (soqlFallbackQuery objectName searchTerm (lookupFields searchFields) limit),
        [soslQuery objectName searchTerm (lookupFields searchFields) limit,
          soqlFallbackQuery objectName searchTerm (lookupFields searchFields) limit])
  | .raised =>
    (lookupFallback t
        (soqlFallbackQuery objectName searchTerm (lookupFields searchFields) limit),
      [soslQuery objectName searchTerm (lookupFields searchFields) limit,
        soqlFallbackQuery objectName searchTerm (lookupFields searchFields) limit])

/-- The describe request path (line 105). -/
def describeRequest (objectName : String) : String :=
  "/sobjects/" ++ objectName ++ "/describe"

/-- Embeds `SalesforceClient.describe` (lines 102-107): issue the describe GET,
run `_handle_error`, return the parsed body.  The second component is the
list of transport requests this call issues — always exactly one, since the
client class keeps no describe cache (its only state is the connection
handle, lines 19-43). -/
def describeOnce (t : Transport) (objectName : String) :
    Except PyErr BodyJson × List String :=
  match t (describeRequest objectName) with
  | .raised => (.error .transportRaised, [describeRequest objectName])
  | .answered r =>
    match handleError r with
    | some m => (.error (.sfError m), [describeRequest objectName])
    | none =>
      match r.body with
      | some j => (.ok j, [describeRequest objectName])
      | none => (.error .valueError, [describeRequest objectName])

/-- The transport requests issued by a sequence of `describe` calls on one
client instance, in order. -/
def describeRun (t : Transport) (calls : List String) : List String :=
  calls.foldl (fun acc name => acc ++ (describeOnce t name).2) []

theorem strData_append (a b : String) : (a ++ b).data = a.data ++ b.data :=
  String.data_append a b

theorem strAppend_ne_empty_left (a b : String) (h : a.data ≠ []) : a ++ b ≠ "" := by
  intro he
  exact h (List.append_eq_nil.mp (by simpa [strData_append] using congrArg String.data he)).1

theorem apiErrorNeAuthMsg (m : String) :
    ("Salesforce API Error: " ++ m) ≠ authExpiredMsg := by
  intro h
  have hd : ("Salesforce API Error: " ++ m).data = authExpiredMsg.data :=
    congrArg String.data h
  rw [strData_append] at hd
  have h22 := congrArg (List.take 22) hd
  rw [show (22 : Nat) = ("Salesforce API Error: " : String).data.length from by decide,
    List.take_left] at h22
  exact absurd h22 (by decide)

/-- C4: at the transport boundary, a 401 whose structured error list contains
`INVALID_SESSION_ID` is classified as the auth-expired error (the spec name
`AuthExpiredError` for the token-expired raise of `_handle_error`), while a
401 with any other code and any other status at least 400 is classified as a
remote error (the spec name `RemoteError` for the `Salesforce API Error:`
raise) — and the two kinds are distinguishable, since no remote-error message
equals the auth-expired message. -/
theorem errorClassification (r : Response) (h : 400 ≤ r.status) :
    (isAuth401 r = true → handleError r = some authExpiredMsg) ∧
    (isAuth401 r = false →
      ∃ m, handleError r = some ("Salesforce API Error: " ++ m) ∧
        ("Salesforce API Error: " ++ m) ≠ authExpiredMsg) := by
  constructor
  · intro ha
    unfold handleError
    rw [if_pos ha]
  · intro ha
    unfold handleError
    rw [if_neg (by simp [ha]), if_pos h]
    cases hb : r.body with
    | none => exact ⟨r.text, rfl, apiErrorNeAuthMsg _⟩
    | some j =>
      cases j with
      | blist es => exact ⟨errListMessage es, rfl, apiErrorNeAuthMsg _⟩
      | bobj recs rep => exact ⟨rep, rfl, apiErrorNeAuthMsg _⟩

/-- Witness for C4: a concrete 401 with `INVALID_SESSION_ID` takes the
auth-expired classification, and a concrete 500 takes the remote
classification. -/
theorem errorClassification_witness :
    handleError ⟨401, some (.blist [⟨some "INVALID_SESSION_ID", none, "x"⟩]), ""⟩ =
      some authExpiredMsg ∧
    (∃ m, handleError ⟨500, none, "boom"⟩ = some ("Salesforce API Error: " ++ m) ∧
      ("Salesforce API Error: " ++ m) ≠ authExpiredMsg) := by
  constructor
  · exact (errorClassification _ (by decide)).1 (by decide)
  · exact (errorClassification _ (by decide)).2 (by decide)

/-- C5: the pair with effective function `COUNT` and effective field `Id`
renders as the unaliased text `COUNT(Id)`; every other pair renders with an
alias equal to the supplied alias or, when none is supplied, the default
`FUNC_field`. -/
theorem aggregateRendering (a : AggSpec) :
    (effFunc a = "COUNT" ∧ effField a = "Id" → renderAggregate a = "COUNT(Id)") ∧
    (¬(effFunc a = "COUNT" ∧ effField a = "Id") →
      renderAggregate a =
        effFunc a ++ "(" ++ effField a ++ ") " ++
          a.aliasVal.getD (effFunc a ++ "_" ++ effField a)) := by
  constructor
  · rintro ⟨h1, h2⟩
    unfold renderAggregate
    rw [if_pos (by simp [h1, h2])]
  · intro h
    unfold renderAggregate effAlias
    rw [if_neg (by simpa [Bool.and_eq_true, beq_iff_eq] using h)]

/-- Witness for C5: a lowercase `count` with defaulted field renders as bare
`COUNT(Id)`; a SUM over Amount without a supplied alias renders with the
default alias. -/
theorem aggregateRendering_witness :
    renderAggregate ⟨some "count", none, some "Z"⟩ = "COUNT(Id)" ∧
    renderAggregate ⟨some "SUM", some "Amount", none⟩ = "SUM(Amount) SUM_Amount" := by
  constructor
  · exact (aggregateRendering _).1 (by constructor <;> decide)
  · exact ((aggregateRendering _).2 (by decide)).trans (by decide)

/-- C6: the aggregate query always ends with a LIMIT clause carrying the
supplied cap; its GROUP BY component is empty exactly when no (truthy)
group-by field was supplied; a supplied group-by field yields the GROUP BY
clause and leads the select list; the WHERE component is either absent or
carries a non-empty predicate; and the query is exactly the concatenation of
these clauses. -/
theorem aggregateQueryStructure (objectName : String) (aggs : List AggSpec)
    (groupBy whereClause : Option String) (limit : Int) :
    (∃ p, buildAggregateQuery objectName aggs groupBy whereClause limit =
        p ++ (" LIMIT " ++ toString limit)) ∧
    (groupByStmt groupBy = "" ↔ pyTruthy groupBy = false) ∧
    (∀ g, groupBy = some g → g ≠ "" →
        groupByStmt groupBy = " GROUP BY " ++ g ∧
        selectFields aggs groupBy = g ++ ", " ++ aggregateStr aggs) ∧
    (whereFilter whereClause = "" ∨
      ∃ w, whereClause = some w ∧ w ≠ "" ∧ whereFilter whereClause = " WHERE " ++ w) ∧
    buildAggregateQuery objectName aggs groupBy whereClause limit =
      "SELECT " ++ selectFields aggs groupBy ++ " FROM " ++ objectName ++
        whereFilter whereClause ++ groupByStmt groupBy ++ " LIMIT " ++ toString limit := by
  refine ⟨?_, ?_, ?_, ?_, rfl⟩
  · refine ⟨"SELECT " ++ selectFields aggs groupBy ++ " FROM " ++ objectName ++
      whereFilter whereClause ++ groupByStmt groupBy, ?_⟩
    unfold buildAggregateQuery
    exact String.append_assoc _ _ _
  · unfold groupByStmt
    by_cases hg : pyTruthy groupBy = true
    · rw [if_pos hg, hg]
      simp only [Bool.true_eq_false, iff_false]
      exact strAppend_ne_empty_left " GROUP BY " _ (by decide)
    · rw [if_neg hg]
      simp only [Bool.not_eq_true] at hg
      simp [hg]
  · intro g hg hne
    have ht : pyTruthy groupBy = true := by
      simp [hg, pyTruthy, hne]
    constructor
    · unfold groupByStmt
      rw [if_pos ht, hg]
      rfl
    · unfold selectFields
      rw [if_pos ht, hg]
      rfl
  · cases hw : whereClause with
    | none => left; rfl
    | some w =>
      by_cases hne : w = ""
      · left
        unfold whereFilter
        rw [if_neg (by simp [hw, pyTruthy, hne])]
      · right
        refine ⟨w, rfl, hne, ?_⟩
        unfold whereFilter
        rw [if_pos (by simp [hw, pyTruthy, hne])]
        rfl

/-- Witness for C6: a concrete spec with a group-by field produces the
expected GROUP BY clause, the group-by-first select list, and the full query
text ending in the cap. -/
theorem aggregateQueryStructure_witness :
    groupByStmt (some "StageName") = " GROUP BY StageName" ∧
    buildAggregateQuery "Opportunity" [⟨some "COUNT", none, none⟩]
        (some "StageName") none 100 =
      "SELECT StageName, COUNT(Id) FROM Opportunity GROUP BY StageName LIMIT 100" := by
  have h := aggregateQueryStructure "Opportunity" [⟨some "COUNT", none, none⟩]
    (some "StageName") none 100
  refine ⟨((h.2.2.1 "StageName" rfl (by decide)).1).trans (by decide), ?_⟩
  exact (h.2.2.2.2).trans (by decide)

/-- C7: the trend query uses the calendar-year-plus-month bucket for
`"month"`, calendar-year-plus-week-in-year for `"week"` and
calendar-year-plus-day-in-month for `"day"` (the default branch); the
lookback window resolves to the matching absolute start day; the query
filters the date field at or after the rendered start date; and for every
input it ends by ordering on the bucket expression descending with the fixed
cap of 50 rows (the builder takes no caller cap at all). -/
theorem trendQueryStructure (objectName dateField period : String)
    (metrics : Option (List AggSpec)) (startDateStr : String)
    (nowDays timeframe : Int) :
    (period = "month" →
      dateGrouping period dateField =
        "CALENDAR_YEAR(" ++ dateField ++ "), CALENDAR_MONTH(" ++ dateField ++ ")" ∧
      trendStartDays nowDays period timeframe = nowDays - timeframe * 30) ∧
    (period = "week" →
      dateGrouping period dateField =
        "CALENDAR_YEAR(" ++ dateField ++ "), WEEK_IN_YEAR(" ++ dateField ++ ")" ∧
      trendStartDays nowDays period timeframe = nowDays - timeframe * 7) ∧
    (period ≠ "month" → period ≠ "week" →
      dateGrouping period dateField =
        "CALENDAR_YEAR(" ++ dateField ++ "), DAY_IN_MONTH(" ++ dateField ++ ")" ∧
      trendStartDays nowDays period timeframe = nowDays - timeframe) ∧
    (∃ p, buildTrendQuery objectName dateField period metrics startDateStr =
        p ++ " ORDER BY " ++ dateGrouping period dateField ++ " DESC LIMIT 50") ∧
    buildTrendQuery objectName dateField period metrics startDateStr =
      "SELECT " ++ dateGrouping period dateField ++ ", " ++ metricsStr metrics ++
        " FROM " ++ objectName ++ " WHERE " ++ dateField ++ " >= " ++ startDateStr ++
        " GROUP BY " ++ dateGrouping period dateField ++
        " ORDER BY " ++ dateGrouping period dateField ++ " DESC LIMIT 50" := by
  refine ⟨?_, ?_, ?_, ?_, rfl⟩
  · intro h
    constructor
    · unfold dateGrouping
      rw [if_pos (by simp [h])]
    · unfold trendStartDays trendStartOffsetDays
      rw [if_pos (by simp [h])]
  · intro h
    have hm : period ≠ "month" := by simp [h]
    constructor
    · unfold dateGrouping
      rw [if_neg (by simp [hm]), if_pos (by simp [h])]
    · unfold trendStartDays trendStartOffsetDays
      rw [if_neg (by simp [hm]), if_pos (by simp [h])]
  · intro hm hw
    constructor
    · unfold dateGrouping
      rw [if_neg (by simp [hm]), if_neg (by simp [hw])]
    · unfold trendStartDays trendStartOffsetDays
      rw [if_neg (by simp [hm]), if_neg (by simp [hw])]
  · exact ⟨"SELECT " ++ dateGrouping period dateField ++ ", " ++ metricsStr metrics ++
      " FROM " ++ objectName ++ " WHERE " ++ dateField ++ " >= " ++ startDateStr ++
      " GROUP BY " ++ dateGrouping period dateField, rfl⟩

set_option maxRecDepth 8192 in
/-- Witness for C7: the month period at a concrete spec produces the
month-bucketed, date-filtered query ordered descending with the fixed cap. -/
theorem trendQueryStructure_witness :
    dateGrouping "month" "CreatedDate" =
      "CALENDAR_YEAR(CreatedDate), CALENDAR_MONTH(CreatedDate)" ∧
    trendStartDays 20000 "month" 6 = 19820 ∧
    buildTrendQuery "Opportunity" "CreatedDate" "month" none "2025-04-15" =
      "SELECT CALENDAR_YEAR(CreatedDate), CALENDAR_MONTH(CreatedDate), COUNT(Id) Total " ++
        "FROM Opportunity WHERE CreatedDate >= 2025-04-15 " ++
        "GROUP BY CALENDAR_YEAR(CreatedDate), CALENDAR_MONTH(CreatedDate) " ++
        "ORDER BY CALENDAR_YEAR(CreatedDate), CALENDAR_MONTH(CreatedDate) DESC LIMIT 50" := by
  have h := trendQueryStructure "Opportunity" "CreatedDate" "month" none "2025-04-15" 20000 6
  refine ⟨((h.1 rfl).1).trans (by decide), ((h.1 rfl).2).trans (by decide), ?_⟩
  exact (h.2.2.2.2).trans (by decide)

/-- C10: a period tag other than `"month"` and `"week"` is silently treated
exactly like `"day"`: the lookback offset is `timeframe` days, the bucket is
calendar year plus day-in-month, and the built query coincides with the
`"day"` query — the builder is total, so an unknown period is never rejected
as an error. -/
theorem trendUnknownPeriodAsDay (period : String) (h1 : period ≠ "month")
    (h2 : period ≠ "week") (objectName dateField : String)
    (metrics : Option (List AggSpec)) (startDateStr : String) (timeframe : Int) :
    trendStartOffsetDays period timeframe = timeframe ∧
    trendStartOffsetDays period timeframe = trendStartOffsetDays "day" timeframe ∧
    dateGrouping period dateField =
      "CALENDAR_YEAR(" ++ dateField ++ "), DAY_IN_MONTH(" ++ dateField ++ ")" ∧
    buildTrendQuery objectName dateField period metrics startDateStr =
      buildTrendQuery objectName dateField "day" metrics startDateStr := by
  have hoff : trendStartOffsetDays period timeframe = timeframe := by
    unfold trendStartOffsetDays
    rw [if_neg (by simp [h1]), if_neg (by simp [h2])]
  have hgr : dateGrouping period dateField =
      "CALENDAR_YEAR(" ++ dateField ++ "), DAY_IN_MONTH(" ++ dateField ++ ")" := by
    unfold dateGrouping
    rw [if_neg (by simp [h1]), if_neg (by simp [h2])]
  have hgrday : dateGrouping "day" dateField =
      "CALENDAR_YEAR(" ++ dateField ++ "), DAY_IN_MONTH(" ++ dateField ++ ")" := by
    unfold dateGrouping
    rw [if_neg (by decide), if_neg (by decide)]
  refine ⟨hoff, ?_, hgr, ?_⟩
  · rw [hoff]
    unfold trendStartOffsetDays
    rw [if_neg (by decide), if_neg (by decide)]
  · unfold buildTrendQuery
    rw [hgr, hgrday]

/-- Witness for C10: the unknown period `"quarter"` behaves exactly as
`"day"` at a concrete trend spec. -/
theorem trendUnknownPeriodAsDay_witness :
    trendStartOffsetDays "quarter" 6 = 6 ∧
    buildTrendQuery "Case" "CreatedDate" "quarter" none "2025-10-06" =
      buildTrendQuery "Case" "CreatedDate" "day" none "2025-10-06" := by
  have h := trendUnknownPeriodAsDay "quarter" (by decide) (by decide)
    "Case" "CreatedDate" none "2025-10-06" 6
  exact ⟨h.1, h.2.2.2⟩

/-- A transport whose describe endpoint always answers with the same valid
schema payload. -/
def exDescribeTransport : Transport :=
  fun _ => .answered ⟨200, some (.bobj none "schema"), ""⟩

/-- Counterexample to C1: on a client whose first `describe("Account")`
succeeded, a second `describe("Account")` still issues a second fetch
through the transport — the request trace of two describe calls holds the
describe request twice, so no call is served from a cache. -/
theorem describeNotCached_counterexample :
    (describeOnce exDescribeTransport "Account").1 = .ok (.bobj none "schema") ∧
    describeRun exDescribeTransport ["Account", "Account"] =
      [describeRequest "Account", describeRequest "Account"] := by
  exact ⟨rfl, rfl⟩

/-- C1 (amended): `describe` is uncached — every `describe` call on a
client, including repeats of an already-successfully-described object name,
issues exactly one fetch through the transport, so the request trace of a
call sequence is one describe request per call. -/
theorem describeAlwaysFetches (t : Transport) (calls : List String) :
    describeRun t calls = calls.map describeRequest := by
  have hone : ∀ n, (describeOnce t n).2 = [describeRequest n] := by
    intro n
    unfold describeOnce
    cases ht : t (describeRequest n) with
    | raised => rfl
    | answered r =>
      cases hh : handleError r with
      | some m => simp [hh]
      | none =>
        cases hb : r.body with
        | some j => simp [hh, hb]
        | none => simp [hh, hb]
  have hfold : ∀ (cs : List String) (acc : List String),
      cs.foldl (fun acc name => acc ++ (describeOnce t name).2) acc =
        acc ++ cs.map describeRequest := by
    intro cs
    induction cs with
    | nil => intro acc; simp
    | cons hd tl ih =>
      intro acc
      simp only [List.foldl, List.map]
      rw [ih, hone hd]
      simp
  unfold describeRun
  rw [hfold]
  rfl

/-- A transport whose query endpoint answers every request with status 200
and an empty record set. -/
def exZeroRowTransport : Transport :=
  fun _ => .answered ⟨200, some (.bobj (some []) "resp"), ""⟩

/-- A field list with one reference field, so the parent-field filter of the
up direction is non-empty. -/
def exUpFields : List FieldDesc :=
  [⟨some "AccountId", some "reference"⟩]

/-- Counterexample to C2: a record query matching zero rows makes
`get_hierarchy` direction up return a successful result whose record is the
empty dict — it does not raise any error, contrary to the claimed
`NotFoundError`. -/
theorem hierarchyUpZeroRows_counterexample :
    exZeroRowTransport (upQuery "Contact" "003xx" (parentFields exUpFields)) =
      .answered ⟨200, some (.bobj (some []) "resp"), ""⟩ ∧
    getHierarchyUp exZeroRowTransport exUpFields "Contact" "003xx" =
      .ok (.result { record := none, parentFields := exUpFields }) := by
  constructor
  · rfl
  · rfl

/-- C2 (amended): whenever the parent-field filter selects at least one
field and the single record query answers with status 200 and zero rows,
`get_hierarchy` direction up returns a successful result whose record is the
empty dict (together with the selected parent fields), rather than raising
an error. -/
theorem hierarchyUpZeroRowsReturnsEmpty (t : Transport)
    (fields : List FieldDesc) (objectName recordId rep txt : String)
    (hne : parentFields fields ≠ [])
    (hresp : t (upQuery objectName recordId (parentFields fields)) =
      .answered ⟨200, some (.bobj (some []) rep), txt⟩) :
    getHierarchyUp t fields objectName recordId =
      .ok (.result { record := none, parentFields := parentFields fields }) := by
  unfold getHierarchyUp
  rw [if_neg (by simpa [List.isEmpty_iff] using hne), hresp]
  rfl

/-- Witness for C2 (amended), at the concrete empty-result transport and
one-reference-field schema. -/
theorem hierarchyUpZeroRowsReturnsEmpty_witness :
    getHierarchyUp exZeroRowTransport exUpFields "Account" "001aa" =
      .ok (.result { record := none, parentFields := parentFields exUpFields }) :=
  hierarchyUpZeroRowsReturnsEmpty exZeroRowTransport exUpFields "Account" "001aa"
    "resp" "" (by decide) rfl

/-- A child-relationship list whose single entry has a foreign-key field
without the substring `Parent` and no relationship alias, so the heuristic
filter selects nothing. -/
def exDownRels : List ChildRel :=
  [⟨some "AccountId", none, some "Contact"⟩]

/-- A transport whose query endpoint always answers with status 200 and one
record, so any issued child sub-query would succeed and insert a key. -/
def exOkTransport : Transport :=
  fun _ => .answered ⟨200, some (.bobj (some [⟨"c1"⟩]) "resp"), ""⟩

/-- Counterexample to C3: on a discovered child-relationship list where the
heuristic filter selects nothing, the eligible list is empty — not the first
`maxRelationships` of all discovered relationships — and the down direction
queries nothing and returns an empty mapping, even under a transport where
every query would have succeeded. -/
theorem childHeuristicEmpty_counterexample :
    List.filter childRelPred exDownRels = [] ∧
    exDownRels.length = 1 ∧
    eligibleChildRels exDownRels ≠ exDownRels.take maxRelationships ∧
    getHierarchyDownChildren exOkTransport exDownRels "001" = [] := by
  refine ⟨by decide, by decide, by decide, by decide⟩

/-- C3 (amended): when the heuristic filter over the discovered
child-relationship list selects nothing, no relationship becomes eligible:
the down direction issues no sub-query and returns the empty mapping. -/
theorem childHeuristicEmptyNoQueries (t : Transport) (rels : List ChildRel)
    (recordId : String) (h : rels.filter childRelPred = []) :
    eligibleChildRels rels = [] ∧
    getHierarchyDownChildren t rels recordId = [] := by
  have he : eligibleChildRels rels = [] := by
    unfold eligibleChildRels
    rw [h]
    rfl
  refine ⟨he, ?_⟩
  unfold getHierarchyDownChildren
  rw [he]
  rfl

/-- Witness for C3 (amended), at the concrete heuristic-defeating
relationship list. -/
theorem childHeuristicEmptyNoQueries_witness :
    eligibleChildRels exDownRels = [] ∧
    getHierarchyDownChildren exOkTransport exDownRels "003bb" = [] :=
  childHeuristicEmptyNoQueries exOkTransport exDownRels "003bb" (by decide)

/-- The record list a successful child sub-query contributes
(`child_data.get("records", [])`, line 272); empty in every non-inserting
branch. -/
def childRecords (t : Transport) (recordId : String) (rel : ChildRel) :
    List SRec :=
  match rel.childSObject, rel.field with
  | some cs, some fk =>
    match t (childQuery cs fk recordId) with
    | .answered r =>
      if r.status == 200 then
        match r.body with
        | some (.bobj recs _) => recs.getD []
        | _ => []
      else []
    | .raised => []
  | _, _ => []

theorem childStep_eq (t : Transport) (recordId : String)
    (acc : List (String × List SRec)) (rel : ChildRel) :
    childStep t recordId acc rel =
      if relSucceeds t recordId rel then
        dictInsert acc (relDisplayName rel) (childRecords t recordId rel)
      else acc := by
  rcases rel with ⟨f, rn, cs⟩
  cases cs with
  | none => cases f <;> rfl
  | some c =>
    cases f with
    | none => rfl
    | some fk =>
      cases ht : t (childQuery c fk recordId) with
      | raised => simp [childStep, relSucceeds, childRecords, ht]
      | answered r =>
        by_cases hs : (r.status == 200) = true
        · cases hb : r.body with
          | none => simp [childStep, relSucceeds, childRecords, ht, hs, hb]
          | some b =>
            cases b with
            | blist es => simp [childStep, relSucceeds, childRecords, ht, hs, hb]
            | bobj recs rep =>
              simp [childStep, relSucceeds, childRecords, ht, hs, hb]
        · have hs2 : (r.status == 200) = false := by
            simpa using hs
          simp [childStep, relSucceeds, childRecords, ht, hs2]

/-- The key list of the children mapping. -/
def keysOf (m : List (String × List SRec)) : List String :=
  m.map Prod.fst

theorem keysOf_dictInsert (m : List (String × List SRec)) (k : String)
    (v : List SRec) : ∀ x ∈ keysOf (dictInsert m k v), x ∈ keysOf m ∨ x = k := by
  intro x hx
  unfold dictInsert at hx
  by_cases hc : m.any (fun p => p.1 == k) = true
  · rw [if_pos hc] at hx
    unfold keysOf at hx
    rw [List.map_map] at hx
    rcases List.mem_map.mp hx with ⟨p, hp, hfx⟩
    by_cases hpk : (p.1 == k) = true
    · right
      simp only [Function.comp, hpk, if_pos] at hfx
      exact hfx.symm
    · left
      simp only [Function.comp, hpk] at hfx
      rw [if_neg (by simp [hpk])] at hfx
      exact hfx ▸ List.mem_map.mpr ⟨p, hp, rfl⟩
  · rw [if_neg hc] at hx
    unfold keysOf at hx
    rw [List.map_append] at hx
    rcases List.mem_append.mp hx with h | h
    · exact Or.inl h
    · right
      simpa using h

theorem keysOf_childStep (t : Transport) (recordId : String)
    (acc : List (String × List SRec)) (rel : ChildRel) (x : String)
    (hx : x ∈ keysOf (childStep t recordId acc rel)) :
    x ∈ keysOf acc ∨
      (relSucceeds t recordId rel = true ∧ relDisplayName rel = x) := by
  rw [childStep_eq] at hx
  by_cases hs : relSucceeds t recordId rel = true
  · rw [if_pos hs] at hx
    rcases keysOf_dictInsert _ _ _ x hx with h | h
    · exact Or.inl h
    · exact Or.inr ⟨hs, h.symm⟩
  · rw [if_neg hs] at hx
    exact Or.inl hx

theorem keysOf_foldl_childStep (t : Transport) (recordId : String)
    (l : List ChildRel) : ∀ (acc : List (String × List SRec)) (x : String),
    x ∈ keysOf (l.foldl (childStep t recordId) acc) →
    x ∈ keysOf acc ∨
      ∃ rel, rel ∈ l ∧ relSucceeds t recordId rel = true ∧
        relDisplayName rel = x := by
  induction l with
  | nil => exact fun acc x hx => Or.inl hx
  | cons hd tl ih =>
    intro acc x hx
    rcases ih (childStep t recordId acc hd) x hx with h | h
    · rcases keysOf_childStep t recordId acc hd x h with h2 | h2
      · exact Or.inl h2
      · exact Or.inr ⟨hd, List.mem_cons_self _ _, h2⟩
    · rcases h with ⟨rel, hmem, hrest⟩
      exact Or.inr ⟨rel, List.mem_cons_of_mem _ hmem, hrest⟩

theorem dictInsert_length (m : List (String × List SRec)) (k : String)
    (v : List SRec) : (dictInsert m k v).length ≤ m.length + 1 := by
  unfold dictInsert
  by_cases hc : m.any (fun p => p.1 == k) = true
  · rw [if_pos hc]
    simp
  · rw [if_neg hc]
    simp

theorem childStep_length (t : Transport) (recordId : String)
    (acc : List (String × List SRec)) (rel : ChildRel) :
    (childStep t recordId acc rel).length ≤ acc.length + 1 := by
  rw [childStep_eq]
  by_cases hs : relSucceeds t recordId rel = true
  · rw [if_pos hs]
    exact dictInsert_length _ _ _
  · rw [if_neg hs]
    exact Nat.le_succ _

theorem foldl_childStep_length (t : Transport) (recordId : String)
    (l : List ChildRel) : ∀ (acc : List (String × List SRec)),
    (l.foldl (childStep t recordId) acc).length ≤ acc.length + l.length := by
  induction l with
  | nil => intro acc; simp
  | cons hd tl ih =>
    intro acc
    have h1 := ih (childStep t recordId acc hd)
    have h2 := childStep_length t recordId acc hd
    simp only [List.foldl, List.length_cons]
    omega

/-- C8: best-effort fan-out in the down direction — for every transport,
discovered child-relationship list and record id, the returned mapping has
at most `maxRelationships` keys, and the display name of an eligible
relationship whose sub-query fails (and which no like-named eligible
relationship rescues with a success) is absent from the mapping; the loop
itself absorbs every per-relationship failure, so the call as a whole still
returns a mapping. -/
theorem resolveChildrenBestEffort (t : Transport) (rels : List ChildRel)
    (recordId : String) :
    (getHierarchyDownChildren t rels recordId).length ≤ maxRelationships ∧
    (∀ rel, rel ∈ eligibleChildRels rels →
      relSucceeds t recordId rel = false →
      (∀ rel2, rel2 ∈ eligibleChildRels rels →
        relDisplayName rel2 = relDisplayName rel →
        relSucceeds t recordId rel2 = false) →
      relDisplayName rel ∉ keysOf (getHierarchyDownChildren t rels recordId)) := by
  constructor
  · have h1 := foldl_childStep_length t recordId (eligibleChildRels rels) []
    have h2 : (eligibleChildRels rels).length ≤ maxRelationships :=
      List.length_take_le _ _
    unfold getHierarchyDownChildren
    simp only [List.length_nil, Nat.zero_add] at h1
    omega
  · intro rel hmem hfail hall hkey
    rcases keysOf_foldl_childStep t recordId (eligibleChildRels rels) [] _ hkey
      with h | ⟨rel2, hm2, hs2, hn2⟩
    · simp [keysOf] at h
    · have hfalse := hall rel2 hm2 hn2
      rw [hfalse] at hs2
      exact Bool.noConfusion hs2

/-- Three eligible child relationships with distinct display names. -/
def exRelsABC : List ChildRel :=
  [⟨some "ParentId", some "As", some "A"⟩,
   ⟨some "ParentId", some "Bs", some "B"⟩,
   ⟨some "ParentId", some "Cs", some "C"⟩]

/-- A fake transport that fails exactly the sub-query of the second
relationship and answers every other query with one record. -/
def exFailBTransport : Transport :=
  fun q =>
    if q = childQuery "B" "ParentId" "001" then .raised
    else .answered ⟨200, some (.bobj (some [⟨"r1"⟩]) "resp"), ""⟩

/-- Witness for C8: with a transport failing exactly one of three
relationship queries, the mapping stays within the bound and the failing
relationship's key is absent. -/
theorem resolveChildrenBestEffort_witness :
    (getHierarchyDownChildren exFailBTransport exRelsABC "001").length ≤
      maxRelationships ∧
    "Bs" ∉ keysOf (getHierarchyDownChildren exFailBTransport exRelsABC "001") := by
  have h := resolveChildrenBestEffort exFailBTransport exRelsABC "001"
  have hb : relDisplayName ⟨some "ParentId", some "Bs", some "B"⟩ = "Bs" := by
    decide
  have h2 := h.2 ⟨some "ParentId", some "Bs", some "B"⟩ (by decide) (by decide)
    (by decide)
  rw [hb] at h2
  exact ⟨h.1, h2⟩

/-- C9: two-phase lookup — whenever the full-text phase yields a non-error
response (status 200 with a parseable body, even one with zero rows), that
body is the result and the fallback query is never issued; when the
full-text phase fails (raises), the fallback query is issued and its own
outcome — including each failure mode — surfaces to the caller unmodified. -/
theorem lookupTwoPhase (t : Transport) (objectName searchTerm : String)
    (searchFields : Option (List String)) (limit : Int) :
    (∀ r j,
      t (soslQuery objectName searchTerm (lookupFields searchFields) limit) =
        .answered r →
      r.status = 200 → r.body = some j →
      lookupRecords t objectName searchTerm searchFields limit =
        (.ok j,
          [soslQuery objectName searchTerm (lookupFields searchFields) limit])) ∧
    (t (soslQuery objectName searchTerm (lookupFields searchFields) limit) =
        .raised →
      (lookupRecords t objectName searchTerm searchFields limit).2 =
        [soslQuery objectName searchTerm (lookupFields searchFields) limit,
          soqlFallbackQuery objectName searchTerm (lookupFields searchFields) limit] ∧
      (lookupRecords t objectName searchTerm searchFields limit).1 =
        lookupFallback t
          (soqlFallbackQuery objectName searchTerm (lookupFields searchFields) limit)) ∧
    (t (soqlFallbackQuery objectName searchTerm (lookupFields searchFields) limit) =
        .raised →
      lookupFallback t
          (soqlFallbackQuery objectName searchTerm (lookupFields searchFields) limit) =
        .error .transportRaised) ∧
    (∀ r m,
      t (soqlFallbackQuery objectName searchTerm (lookupFields searchFields) limit) =
        .answered r →
      handleError r = some m →
      lookupFallback t
          (soqlFallbackQuery objectName searchTerm (lookupFields searchFields) limit) =
        .error (.sfError m)) := by
  refine ⟨?_, ?_, ?_, ?_⟩
  · intro r j ht hs hb
    unfold lookupRecords
    rw [ht]
    simp only [hs, hb]
    rfl
  · intro ht
    unfold lookupRecords
    rw [ht]
    exact ⟨rfl, rfl⟩
  · intro ht
    unfold lookupFallback
    rw [ht]
  · intro r m ht hm
    unfold lookupFallback
    rw [ht]
    simp [hm]

/-- A transport that answers the SOSL lookup query for `acme` on `Account`
with a zero-row 200 response and raises on everything else. -/
def exSearchOkTransport : Transport :=
  fun q =>
    if q = soslQuery "Account" "acme" ["Name"] 10 then
      .answered ⟨200, some (.bobj (some []) "empty"), ""⟩
    else .raised

/-- A transport on which every request raises. -/
def exAllRaisedTransport : Transport :=
  fun _ => .raised

/-- Witness for C9: a zero-row full-text success is returned with no
fallback request issued, and when both phases raise, the fallback's raised
failure surfaces. -/
theorem lookupTwoPhase_witness :
    lookupRecords exSearchOkTransport "Account" "acme" none 10 =
      (.ok (.bobj (some []) "empty"), [soslQuery "Account" "acme" ["Name"] 10]) ∧
    (lookupRecords exAllRaisedTransport "Account" "acme" none 10).1 =
      .error .transportRaised := by
  constructor
  · exact (lookupTwoPhase exSearchOkTransport "Account" "acme" none 10).1
      ⟨200, some (.bobj (some []) "empty"), ""⟩ (.bobj (some []) "empty")
      (by decide) rfl rfl
  · have h := lookupTwoPhase exAllRaisedTransport "Account" "acme" none 10
    rw [(h.2.1 rfl).2]
    exact h.2.2.1 rfl

end SFC
